import Mathlib

/-!
Shallow embedding of the account-activity watchdog in src/v.py.

The embedding models the module-level mutable state of v.py
(last_big_outflow_time, alert_sent, processed_sigs, monitor_pubkey,
monitor_task and the background tasks spawned with asyncio.create_task)
as explicit Lean state records, and each code path as a pure function
from state to state plus a list of emitted events.  Times are rationals
(time.monotonic values); SOL amounts are rationals (lamports / 1e9).
-/

namespace Tracker

/-- One parsed instruction of a transaction, as read by
`_process_instructions` (v.py lines 116-130): `instr.get("program")`,
`instr.get("parsed").get("type")` and the `parsed.info` fields
`source`, `destination` and `lamports` (absent fields are `none`;
a missing or malformed `lamports` is read as 0 by the try/except). -/
structure Instruction where
  program : String
  parsedType : String
  source : Option String
  destination : Option String
  lamports : Nat
deriving DecidableEq

/-- A fetched transaction, as consumed by `poll_signatures`
(v.py lines 100-110) and the websocket loop (lines 173-181):
the top-level instruction list `transaction.message.instructions`
and the inner-instruction groups `meta.innerInstructions`. -/
structure TransactionRecord where
  instructions : List Instruction
  innerInstructions : List (List Instruction)
deriving DecidableEq

/-- Observable effects: the semantically relevant `send_message` calls
of v.py.  `transferFound` is the line-130 message, `alert` the line-140
message, `monitoringStarted` the line-148 message, `cannotMonitor` the
line-194 message. -/
inductive Event where
  | transferFound (sol : ℚ)
  | alert (elapsed : ℚ)
  | monitoringStarted
  | cannotMonitor
deriving DecidableEq

/-- The module-level watchdog state of v.py (lines 53-55):
`last_big_outflow_time` (None until first set), `alert_sent`, and the
dedup set `processed_sigs` (modelled as a list of admitted signatures). -/
structure WatchState where
  last_big_outflow_time : Option ℚ
  alert_sent : Bool
  processed_sigs : List String
deriving DecidableEq

/-- One iteration of the body of `_process_instructions` (v.py lines
118-130): for a system-program transfer instruction whose `source`
equals the watched pubkey, compute `sol = lamports / 1e9` and, when
`sol >= THRESHOLD_SOL`, set `last_big_outflow_time = now`, clear
`alert_sent` and send the transfer-found message.  No other branch
reads or writes state. -/
def process_instruction (threshold : ℚ) (pubkey : String) (now : ℚ)
    (st : WatchState) (instr : Instruction) : WatchState × List Event :=
  if instr.program = "system" ∧ instr.parsedType = "transfer" then
    if instr.source = some pubkey then
      let sol : ℚ := (instr.lamports : ℚ) / 1000000000
      if sol ≥ threshold then
        ({ st with last_big_outflow_time := some now, alert_sent := false },
         [Event.transferFound sol])
      else (st, [])
    else (st, [])
  else (st, [])

/-- `_process_instructions` (v.py lines 116-130): fold
`process_instruction` over the instruction list, concatenating the
emitted messages. -/
def process_instructions (threshold : ℚ) (pubkey : String) (now : ℚ) :
    WatchState → List Instruction → WatchState × List Event
  | st, [] => (st, [])
  | st, instr :: rest =>
      let p := process_instruction threshold pubkey now st instr
      let q := process_instructions threshold pubkey now p.1 rest
      (q.1, p.2 ++ q.2)

/-- The inner-instruction loop (v.py lines 108-110 and 179-181):
`_process_instructions` applied to each inner-instruction group in
order. -/
def process_inner (threshold : ℚ) (pubkey : String) (now : ℚ) :
    WatchState → List (List Instruction) → WatchState × List Event
  | st, [] => (st, [])
  | st, group :: rest =>
      let p := process_instructions threshold pubkey now st group
      let q := process_inner threshold pubkey now p.1 rest
      (q.1, p.2 ++ q.2)

/-- Processing of one fetched transaction (v.py lines 100-110, identical
on the websocket path at lines 173-181): top-level instructions first,
then every inner-instruction group. -/
def process_record (threshold : ℚ) (pubkey : String) (now : ℚ)
    (st : WatchState) (tx : TransactionRecord) : WatchState × List Event :=
  let p := process_instructions threshold pubkey now st tx.instructions
  let q := process_inner threshold pubkey now p.1 tx.innerInstructions
  (q.1, p.2 ++ q.2)

/-- Handling of one signature entry in the `poll_signatures` loop body
(v.py lines 92-110): skip an empty signature or one already in
`processed_sigs`; otherwise add it to `processed_sigs` FIRST, then fetch
the parsed transaction (`fetch` models `fetch_parsed_transaction`, which
returns None on any error); a failed fetch is skipped with the signature
left in the dedup set; a successful fetch is classified. -/
def poll_signatures_step (fetch : String → Option TransactionRecord)
    (threshold : ℚ) (pubkey : String) (now : ℚ)
    (st : WatchState) (sig : String) : WatchState × List Event :=
  if sig = "" ∨ sig ∈ st.processed_sigs then (st, [])
  else
    let st1 : WatchState := { st with processed_sigs := sig :: st.processed_sigs }
    match fetch sig with
    | none => (st1, [])
    | some tx => process_record threshold pubkey now st1 tx

/-- Handling of one streamed message in `subscribe_account_ws`
(v.py lines 162-181).  The body is line-for-line the same as the poll
path: skip empty or already-processed signatures, add before fetching,
skip a failed fetch, classify top-level and inner instructions. -/
def subscribe_ws_step (fetch : String → Option TransactionRecord)
    (threshold : ℚ) (pubkey : String) (now : ℚ)
    (st : WatchState) (sig : String) : WatchState × List Event :=
  if sig = "" ∨ sig ∈ st.processed_sigs then (st, [])
  else
    let st1 : WatchState := { st with processed_sigs := sig :: st.processed_sigs }
    match fetch sig with
    | none => (st1, [])
    | some tx => process_record threshold pubkey now st1 tx

/-- One iteration of `check_elapsed_loop` (v.py lines 132-141), run at
monotonic time `now`: if `last_big_outflow_time` is None, do nothing;
else compute `elapsed = now - last_big_outflow_time` and, when
`elapsed >= PAUSE_THRESHOLD`, send the alert message and set
`alert_sent = True`.  Note the loop never reads `alert_sent`. -/
def check_elapsed_tick (pause_threshold : ℚ) (now : ℚ)
    (st : WatchState) : WatchState × List Event :=
  match st.last_big_outflow_time with
  | none => (st, [])
  | some t =>
      let elapsed := now - t
      if elapsed ≥ pause_threshold then
        ({ st with alert_sent := true }, [Event.alert elapsed])
      else (st, [])

/-- The asyncio task object stored in the module-level `monitor_task`
global of v.py: the pubkey its `subscribe_account` coroutine was started
with, and whether the task has been cancelled. -/
structure MonitorTask where
  pubkey : String
  cancelled : Bool
deriving DecidableEq

/-- The remaining module-level globals of v.py (lines 51-55) together
with the background tasks spawned by `asyncio.create_task`:
`monitor_pubkey`, `monitor_task`, and the pubkeys of the running
`check_elapsed_loop` and `poll_signatures` tasks (v.py lines 150-151;
these tasks are never tracked or cancelled by v.py, so they accumulate). -/
structure GlobalState where
  watch : WatchState
  monitor_pubkey : Option String
  monitor_task : Option MonitorTask
  tick_tasks : List String
  poll_tasks : List String
deriving DecidableEq

/-- The state written at the top of `subscribe_account_ws` (v.py lines
144-147): `last_big_outflow_time = time.monotonic()`,
`alert_sent = False`, `processed_sigs.clear()`. -/
def subscribe_account_ws_entry (now : ℚ) : WatchState :=
  { last_big_outflow_time := some now, alert_sent := false, processed_sigs := [] }

/-- `subscribe_account` (v.py lines 188-194), modelled up to the point
where the websocket read loop would block.  It first sets
`monitor_pubkey`.  With `USE_WEBSOCKETS` true it runs the prologue of
`subscribe_account_ws` (lines 144-151): reset the watch state, send the
monitoring-started message, and spawn `check_elapsed_loop` and
`poll_signatures` tasks for this pubkey.  With `USE_WEBSOCKETS` false it
only sends the cannot-monitor message and returns: no task of any kind
is started. -/
def subscribe_account (use_websockets : Bool) (pubkey : String) (now : ℚ)
    (g : GlobalState) : GlobalState × List Event :=
  let g1 : GlobalState := { g with monitor_pubkey := some pubkey }
  if use_websockets then
    ({ g1 with
        watch := subscribe_account_ws_entry now,
        tick_tasks := pubkey :: g1.tick_tasks,
        poll_tasks := pubkey :: g1.poll_tasks },
     [Event.monitoringStarted])
  else (g1, [Event.cannotMonitor])

/-- The exception handler of `subscribe_account_ws` (v.py lines
182-186), run when the push channel for `old_pubkey` fails: after the
backoff sleep it re-reads the CURRENT global `monitor_task` and, if that
task exists and is not cancelled, spawns `subscribe_account(old_pubkey)`
-- for its own (possibly superseded) pubkey.  The result is `some p`
when a new monitor task for pubkey `p` is spawned, `none` otherwise. -/
def ws_failure_restart (g : GlobalState) (old_pubkey : String) : Option String :=
  match g.monitor_task with
  | some t => if t.cancelled then none else some old_pubkey
  | none => none

/-- `wallet_selected` (v.py lines 204-216): reset
`last_big_outflow_time`, `alert_sent` and `processed_sigs`, cancel the
old `monitor_task` if present and not done, and replace the global
`monitor_task` with a fresh (uncancelled) task for the chosen pubkey.
The `check_elapsed_loop` and `poll_signatures` tasks of the old target
are not referenced anywhere and are left running. -/
def wallet_selected (pubkey : String) (now : ℚ) (g : GlobalState) : GlobalState :=
  { g with
      watch := { last_big_outflow_time := some now, alert_sent := false,
                 processed_sigs := [] },
      monitor_task := some { pubkey := pubkey, cancelled := false } }

/-- `stop` (v.py lines 218-222): cancel the current `monitor_task` if
present and not done.  Nothing else is touched: the watch state, the
dedup set, and the `check_elapsed_loop` and `poll_signatures` tasks all
survive. -/
def stop (g : GlobalState) : GlobalState :=
  match g.monitor_task with
  | some t => { g with monitor_task := some { t with cancelled := true } }
  | none => g

/-- Fixture: a 1-SOL system transfer from wallet W1 to wallet W2. -/
def demoOutflow : Instruction :=
  { program := "system", parsedType := "transfer",
    source := some "W1", destination := some "W2", lamports := 1000000000 }

/-- Fixture: a transaction whose only transfer sits in an
inner-instruction group, with an empty top-level instruction list. -/
def demoTx : TransactionRecord :=
  { instructions := [], innerInstructions := [[demoOutflow]] }

/-- Fixture: a resolver that knows the single signature sigA. -/
def demoFetch : String → Option TransactionRecord :=
  fun sig => if sig = "sigA" then some demoTx else none

/-- Fixture: a resolver for which every fetch fails (returns None). -/
def demoFetchNone : String → Option TransactionRecord := fun _ => none

/-- Fixture: the watch state before any monitoring has started. -/
def emptyWatch : WatchState :=
  { last_big_outflow_time := none, alert_sent := false, processed_sigs := [] }

/-- Fixture: a running monitor for wallet W1 with one admitted signature
and a last qualifying transfer at monotonic time 0. -/
def demoGlobal : GlobalState :=
  { watch := { last_big_outflow_time := some 0, alert_sent := false,
               processed_sigs := ["s1"] },
    monitor_pubkey := some "W1",
    monitor_task := some { pubkey := "W1", cancelled := false },
    tick_tasks := ["W1"], poll_tasks := ["W1"] }

/-- An instruction the classifier of v.py acts on: a system-program
transfer out of the watched pubkey whose SOL amount reaches the
threshold. -/
def qualifying (threshold : ℚ) (pubkey : String) (instr : Instruction) : Prop :=
  instr.program = "system" ∧ instr.parsedType = "transfer" ∧
  instr.source = some pubkey ∧ (instr.lamports : ℚ) / 1000000000 ≥ threshold

theorem process_instruction_sigs (threshold : ℚ) (pubkey : String) (now : ℚ)
    (st : WatchState) (instr : Instruction) :
    ((process_instruction threshold pubkey now st instr).1).processed_sigs
      = st.processed_sigs := by
  simp only [process_instruction]
  split_ifs <;> rfl

theorem process_instructions_sigs (threshold : ℚ) (pubkey : String) (now : ℚ)
    (l : List Instruction) : ∀ st : WatchState,
    ((process_instructions threshold pubkey now st l).1).processed_sigs
      = st.processed_sigs := by
  induction l with
  | nil => intro st; rfl
  | cons instr rest ih =>
      intro st
      simp only [process_instructions]
      rw [ih, process_instruction_sigs]

theorem process_inner_sigs (threshold : ℚ) (pubkey : String) (now : ℚ)
    (gs : List (List Instruction)) : ∀ st : WatchState,
    ((process_inner threshold pubkey now st gs).1).processed_sigs
      = st.processed_sigs := by
  induction gs with
  | nil => intro st; rfl
  | cons group rest ih =>
      intro st
      simp only [process_inner]
      rw [ih, process_instructions_sigs]

theorem process_record_sigs (threshold : ℚ) (pubkey : String) (now : ℚ)
    (st : WatchState) (tx : TransactionRecord) :
    ((process_record threshold pubkey now st tx).1).processed_sigs
      = st.processed_sigs := by
  simp only [process_record]
  rw [process_inner_sigs, process_instructions_sigs]

/-- The websocket per-message handler and the poll per-signature handler
are the same function (v.py duplicates the block verbatim). -/
theorem subscribe_ws_step_eq_poll : subscribe_ws_step = poll_signatures_step := rfl

theorem poll_signatures_step_of_mem (fetch : String → Option TransactionRecord)
    (threshold : ℚ) (pubkey : String) (now : ℚ) (st : WatchState) (sig : String)
    (h : sig ∈ st.processed_sigs) :
    poll_signatures_step fetch threshold pubkey now st sig = (st, []) := by
  simp [poll_signatures_step, h]

theorem poll_signatures_step_fetched (fetch : String → Option TransactionRecord)
    (threshold : ℚ) (pubkey : String) (now : ℚ) (st : WatchState) (sig : String)
    (tx : TransactionRecord)
    (h0 : sig ≠ "") (h1 : sig ∉ st.processed_sigs) (h2 : fetch sig = some tx) :
    poll_signatures_step fetch threshold pubkey now st sig
      = process_record threshold pubkey now
          { st with processed_sigs := sig :: st.processed_sigs } tx := by
  simp [poll_signatures_step, h0, h1, h2]

theorem poll_signatures_step_fetch_failed (fetch : String → Option TransactionRecord)
    (threshold : ℚ) (pubkey : String) (now : ℚ) (st : WatchState) (sig : String)
    (h0 : sig ≠ "") (h1 : sig ∉ st.processed_sigs) (h2 : fetch sig = none) :
    poll_signatures_step fetch threshold pubkey now st sig
      = ({ st with processed_sigs := sig :: st.processed_sigs }, []) := by
  simp [poll_signatures_step, h0, h1, h2]

theorem poll_signatures_step_sigs (fetch : String → Option TransactionRecord)
    (threshold : ℚ) (pubkey : String) (now : ℚ) (st : WatchState) (sig : String) :
    ((poll_signatures_step fetch threshold pubkey now st sig).1).processed_sigs
        = st.processed_sigs
    ∨ ((poll_signatures_step fetch threshold pubkey now st sig).1).processed_sigs
        = sig :: st.processed_sigs := by
  by_cases hc : sig = "" ∨ sig ∈ st.processed_sigs
  · left; simp [poll_signatures_step, hc]
  · right
    simp only [poll_signatures_step, if_neg hc]
    cases hf : fetch sig with
    | none => rfl
    | some tx => rw [process_record_sigs]

theorem poll_signatures_step_fresh_sigs (fetch : String → Option TransactionRecord)
    (threshold : ℚ) (pubkey : String) (now : ℚ) (st : WatchState) (sig : String)
    (h0 : sig ≠ "") (h1 : sig ∉ st.processed_sigs) :
    ((poll_signatures_step fetch threshold pubkey now st sig).1).processed_sigs
      = sig :: st.processed_sigs := by
  have hc : ¬ (sig = "" ∨ sig ∈ st.processed_sigs) := by
    rintro (h | h)
    · exact h0 h
    · exact h1 h
  simp only [poll_signatures_step, if_neg hc]
  cases hf : fetch sig with
  | none => rfl
  | some tx => rw [process_record_sigs]

theorem poll_signatures_step_mem_mono (fetch : String → Option TransactionRecord)
    (threshold : ℚ) (pubkey : String) (now : ℚ) (st : WatchState) (sig s : String)
    (h : s ∈ st.processed_sigs) :
    s ∈ ((poll_signatures_step fetch threshold pubkey now st sig).1).processed_sigs := by
  rcases poll_signatures_step_sigs fetch threshold pubkey now st sig with h1 | h1 <;>
    rw [h1]
  · exact h
  · exact List.mem_cons_of_mem _ h

theorem process_instruction_qual (threshold : ℚ) (pubkey : String) (now : ℚ)
    (st : WatchState) (instr : Instruction)
    (h : qualifying threshold pubkey instr) :
    process_instruction threshold pubkey now st instr
      = ({ st with last_big_outflow_time := some now, alert_sent := false },
         [Event.transferFound ((instr.lamports : ℚ) / 1000000000)]) := by
  obtain ⟨h1, h2, h3, h4⟩ := h
  simp [process_instruction, h1, h2, h3, h4]

theorem process_instructions_mem (threshold : ℚ) (pubkey : String) (now : ℚ)
    (l : List Instruction) : ∀ (st : WatchState) (instr : Instruction),
    instr ∈ l → qualifying threshold pubkey instr →
    Event.transferFound ((instr.lamports : ℚ) / 1000000000)
      ∈ (process_instructions threshold pubkey now st l).2 := by
  induction l with
  | nil => intro st instr h; exact absurd h (List.not_mem_nil _)
  | cons a rest ih =>
      intro st instr hmem hq
      simp only [process_instructions]
      rcases List.mem_cons.mp hmem with rfl | hmem2
      · rw [process_instruction_qual threshold pubkey now st instr hq]
        exact List.mem_append_left _ (List.mem_singleton.mpr rfl)
      · exact List.mem_append_right _ (ih _ _ hmem2 hq)

theorem process_inner_mem (threshold : ℚ) (pubkey : String) (now : ℚ)
    (gs : List (List Instruction)) : ∀ (st : WatchState)
    (group : List Instruction) (instr : Instruction),
    group ∈ gs → instr ∈ group → qualifying threshold pubkey instr →
    Event.transferFound ((instr.lamports : ℚ) / 1000000000)
      ∈ (process_inner threshold pubkey now st gs).2 := by
  induction gs with
  | nil => intro st group instr h; exact absurd h (List.not_mem_nil _)
  | cons g rest ih =>
      intro st group instr hg hi hq
      simp only [process_inner]
      rcases List.mem_cons.mp hg with rfl | hg2
      · exact List.mem_append_left _ (process_instructions_mem threshold pubkey now group st instr hi hq)
      · exact List.mem_append_right _ (ih _ _ _ hg2 hi hq)

theorem process_record_mem_inner (threshold : ℚ) (pubkey : String) (now : ℚ)
    (st : WatchState) (tx : TransactionRecord)
    (group : List Instruction) (instr : Instruction)
    (hg : group ∈ tx.innerInstructions) (hi : instr ∈ group)
    (hq : qualifying threshold pubkey instr) :
    Event.transferFound ((instr.lamports : ℚ) / 1000000000)
      ∈ (process_record threshold pubkey now st tx).2 := by
  simp only [process_record]
  exact List.mem_append_right _
    (process_inner_mem threshold pubkey now tx.innerInstructions _ group instr hg hi hq)

/-- Claim C7: admission is idempotent.  For any signature not yet
admitted, the first delivery (here on the poll path) passes the dedup
check and records the signature; a second delivery of the same
signature, whether through the websocket handler or the poll handler and
whatever its resolver returns, is dropped with no state change and no
emitted message, hence no additional classification and no additional
timer reset. -/
theorem admission_idempotent (fetchA fetchB : String → Option TransactionRecord)
    (threshold : ℚ) (pubkey : String) (t1 t2 : ℚ) (st : WatchState) (sig : String)
    (h0 : sig ≠ "") (h1 : sig ∉ st.processed_sigs) :
    ((poll_signatures_step fetchA threshold pubkey t1 st sig).1).processed_sigs
        = sig :: st.processed_sigs
    ∧ subscribe_ws_step fetchB threshold pubkey t2
        (poll_signatures_step fetchA threshold pubkey t1 st sig).1 sig
        = ((poll_signatures_step fetchA threshold pubkey t1 st sig).1, [])
    ∧ poll_signatures_step fetchB threshold pubkey t2
        (poll_signatures_step fetchA threshold pubkey t1 st sig).1 sig
        = ((poll_signatures_step fetchA threshold pubkey t1 st sig).1, []) := by
  have hsigs := poll_signatures_step_fresh_sigs fetchA threshold pubkey t1 st sig h0 h1
  have hmem : sig ∈ ((poll_signatures_step fetchA threshold pubkey t1 st sig).1).processed_sigs := by
    rw [hsigs]; exact List.mem_cons_self _ _
  refine ⟨hsigs, ?_, ?_⟩
  · rw [subscribe_ws_step_eq_poll]
    exact poll_signatures_step_of_mem fetchB threshold pubkey t2 _ sig hmem
  · exact poll_signatures_step_of_mem fetchB threshold pubkey t2 _ sig hmem

/-- Witness for C7 at a concrete input: signature sigA delivered first
by the poll channel, then redelivered through the websocket handler and
the poll handler. -/
theorem admission_idempotent_witness :
    ((poll_signatures_step demoFetch (1/2) "W1" 0 emptyWatch "sigA").1).processed_sigs
        = "sigA" :: emptyWatch.processed_sigs
    ∧ subscribe_ws_step demoFetchNone (1/2) "W1" 5
        (poll_signatures_step demoFetch (1/2) "W1" 0 emptyWatch "sigA").1 "sigA"
        = ((poll_signatures_step demoFetch (1/2) "W1" 0 emptyWatch "sigA").1, [])
    ∧ poll_signatures_step demoFetchNone (1/2) "W1" 5
        (poll_signatures_step demoFetch (1/2) "W1" 0 emptyWatch "sigA").1 "sigA"
        = ((poll_signatures_step demoFetch (1/2) "W1" 0 emptyWatch "sigA").1, []) :=
  admission_idempotent demoFetch demoFetchNone (1/2) "W1" 0 5 emptyWatch "sigA"
    (by decide) (by decide)

/-- Claim C8: threshold boundary.  For an outbound system transfer
matched by the classifier, an amount whose converted SOL value is
exactly the configured threshold qualifies (timer reset, latch cleared,
transfer message sent), while one lamport below the threshold does not
qualify (state unchanged, nothing sent). -/
theorem threshold_boundary (threshold : ℚ) (pubkey : String) (now : ℚ)
    (st : WatchState) (instr : Instruction) (lamports : ℕ)
    (hprog : instr.program = "system") (hty : instr.parsedType = "transfer")
    (hsrc : instr.source = some pubkey) (hpos : 0 < lamports)
    (ht : threshold = (lamports : ℚ) / 1000000000) :
    process_instruction threshold pubkey now st { instr with lamports := lamports }
      = ({ st with last_big_outflow_time := some now, alert_sent := false },
         [Event.transferFound ((lamports : ℚ) / 1000000000)])
    ∧ process_instruction threshold pubkey now st { instr with lamports := lamports - 1 }
      = (st, []) := by
  constructor
  · exact process_instruction_qual threshold pubkey now st _
      ⟨hprog, hty, hsrc, by rw [ht]⟩
  · have hlt : ((lamports - 1 : ℕ) : ℚ) < (lamports : ℚ) := by
      exact_mod_cast Nat.sub_lt hpos Nat.one_pos
    have hlt2 : ((lamports - 1 : ℕ) : ℚ) / 1000000000 < (lamports : ℚ) / 1000000000 :=
      (div_lt_div_iff_of_pos_right (by norm_num)).mpr hlt
    have hnot : ¬ (((lamports - 1 : ℕ) : ℚ) / 1000000000 ≥ threshold) := by
      rw [ht]; exact not_le.mpr hlt2
    simp [process_instruction, hprog, hty, hsrc, hnot]

/-- Witness for C8 at a concrete input: threshold 0.5 SOL, a transfer of
exactly 500000000 lamports and one of 499999999 lamports. -/
theorem threshold_boundary_witness :
    process_instruction (((500000000 : ℕ) : ℚ) / 1000000000) "W1" 7 emptyWatch
        { demoOutflow with lamports := 500000000 }
      = ({ emptyWatch with last_big_outflow_time := some 7, alert_sent := false },
         [Event.transferFound (((500000000 : ℕ) : ℚ) / 1000000000)])
    ∧ process_instruction (((500000000 : ℕ) : ℚ) / 1000000000) "W1" 7 emptyWatch
        { demoOutflow with lamports := 500000000 - 1 }
      = (emptyWatch, []) :=
  threshold_boundary (((500000000 : ℕ) : ℚ) / 1000000000) "W1" 7 emptyWatch
    demoOutflow 500000000 rfl rfl rfl (by decide) rfl

/-- Claim C9: nested transfer detection.  A fresh signature whose
transaction contains a qualifying transfer inside some inner-instruction
group is detected on both the poll path and the websocket path: the
transfer-found message for that instruction is among the emitted
events. -/
theorem nested_transfer_detected (fetch : String → Option TransactionRecord)
    (threshold : ℚ) (pubkey : String) (now : ℚ) (st : WatchState) (sig : String)
    (tx : TransactionRecord) (group : List Instruction) (instr : Instruction)
    (h0 : sig ≠ "") (h1 : sig ∉ st.processed_sigs) (h2 : fetch sig = some tx)
    (hg : group ∈ tx.innerInstructions) (hi : instr ∈ group)
    (hq : qualifying threshold pubkey instr) :
    Event.transferFound ((instr.lamports : ℚ) / 1000000000)
        ∈ (poll_signatures_step fetch threshold pubkey now st sig).2
    ∧ Event.transferFound ((instr.lamports : ℚ) / 1000000000)
        ∈ (subscribe_ws_step fetch threshold pubkey now st sig).2 := by
  have h := poll_signatures_step_fetched fetch threshold pubkey now st sig tx h0 h1 h2
  constructor
  · rw [h]
    exact process_record_mem_inner threshold pubkey now _ tx group instr hg hi hq
  · rw [subscribe_ws_step_eq_poll, h]
    exact process_record_mem_inner threshold pubkey now _ tx group instr hg hi hq

/-- Witness for C9 at a concrete input: a transaction with an empty
top-level instruction list and a 1-SOL transfer in its single
inner-instruction group. -/
theorem nested_transfer_detected_witness :
    Event.transferFound ((demoOutflow.lamports : ℚ) / 1000000000)
        ∈ (poll_signatures_step demoFetch ((demoOutflow.lamports : ℚ) / 1000000000)
            "W1" 3 emptyWatch "sigA").2
    ∧ Event.transferFound ((demoOutflow.lamports : ℚ) / 1000000000)
        ∈ (subscribe_ws_step demoFetch ((demoOutflow.lamports : ℚ) / 1000000000)
            "W1" 3 emptyWatch "sigA").2 :=
  nested_transfer_detected demoFetch ((demoOutflow.lamports : ℚ) / 1000000000)
    "W1" 3 emptyWatch "sigA" demoTx [demoOutflow] demoOutflow
    (by decide) (by decide) rfl (by decide) (by decide)
    ⟨rfl, rfl, rfl, le_refl _⟩

/-- Claim C10: a signature is recorded in the dedup set before its
record is fetched, so a failed fetch permanently skips the record for
the lifetime of the current watch target: both handlers leave the
signature admitted with no events, any later delivery of the signature
on either channel while it is admitted is a strict no-op, and
admission survives every further handler step. -/
theorem failed_fetch_permanently_skipped (fetch : String → Option TransactionRecord)
    (threshold : ℚ) (pubkey : String) (now : ℚ) (st : WatchState) (sig : String)
    (h0 : sig ≠ "") (h1 : sig ∉ st.processed_sigs) (h2 : fetch sig = none) :
    poll_signatures_step fetch threshold pubkey now st sig
        = ({ st with processed_sigs := sig :: st.processed_sigs }, [])
    ∧ subscribe_ws_step fetch threshold pubkey now st sig
        = ({ st with processed_sigs := sig :: st.processed_sigs }, [])
    ∧ (∀ (fetchB : String → Option TransactionRecord) (th2 : ℚ) (pk2 : String)
         (t2 : ℚ) (st2 : WatchState), sig ∈ st2.processed_sigs →
         poll_signatures_step fetchB th2 pk2 t2 st2 sig = (st2, [])
         ∧ subscribe_ws_step fetchB th2 pk2 t2 st2 sig = (st2, []))
    ∧ (∀ (fetchB : String → Option TransactionRecord) (th2 : ℚ) (pk2 : String)
         (t2 : ℚ) (st2 : WatchState) (sig2 : String), sig ∈ st2.processed_sigs →
         sig ∈ ((poll_signatures_step fetchB th2 pk2 t2 st2 sig2).1).processed_sigs
         ∧ sig ∈ ((subscribe_ws_step fetchB th2 pk2 t2 st2 sig2).1).processed_sigs) := by
  refine ⟨poll_signatures_step_fetch_failed fetch threshold pubkey now st sig h0 h1 h2,
          ?_, ?_, ?_⟩
  · rw [subscribe_ws_step_eq_poll]
    exact poll_signatures_step_fetch_failed fetch threshold pubkey now st sig h0 h1 h2
  · intro fetchB th2 pk2 t2 st2 hmem
    rw [subscribe_ws_step_eq_poll]
    exact ⟨poll_signatures_step_of_mem fetchB th2 pk2 t2 st2 sig hmem,
           poll_signatures_step_of_mem fetchB th2 pk2 t2 st2 sig hmem⟩
  · intro fetchB th2 pk2 t2 st2 sig2 hmem
    rw [subscribe_ws_step_eq_poll]
    exact ⟨poll_signatures_step_mem_mono fetchB th2 pk2 t2 st2 sig2 sig hmem,
           poll_signatures_step_mem_mono fetchB th2 pk2 t2 st2 sig2 sig hmem⟩

/-- Witness for C10 at a concrete input: signature sigB whose fetch
fails, then redelivered later when the resolver would succeed. -/
theorem failed_fetch_permanently_skipped_witness :
    poll_signatures_step demoFetchNone (1/2) "W1" 0 emptyWatch "sigB"
        = ({ emptyWatch with processed_sigs := "sigB" :: emptyWatch.processed_sigs }, [])
    ∧ poll_signatures_step demoFetch (1/2) "W1" 9
        { emptyWatch with processed_sigs := "sigB" :: emptyWatch.processed_sigs } "sigB"
        = ({ emptyWatch with processed_sigs := "sigB" :: emptyWatch.processed_sigs }, []) :=
  ⟨(failed_fetch_permanently_skipped demoFetchNone (1/2) "W1" 0 emptyWatch "sigB"
      (by decide) (by decide) rfl).1,
   ((failed_fetch_permanently_skipped demoFetchNone (1/2) "W1" 0 emptyWatch "sigB"
      (by decide) (by decide) rfl).2.2.1 demoFetch (1/2) "W1" 9
      { emptyWatch with processed_sigs := "sigB" :: emptyWatch.processed_sigs }
      (by decide)).1⟩

/-- Claim C1: the claim states that once the alert is latched a further
timer tick emits no additional alert.  The code of `check_elapsed_loop`
never reads `alert_sent`: evaluated at the failing input -- alert
already latched (`alert_sent = true`) for an inactivity episode that
began at monotonic time 0, next tick at time 80 with a 40-second pause
threshold -- the tick emits another alert. -/
theorem tick_alerts_again_when_latched :
    check_elapsed_tick 40 80
        { last_big_outflow_time := some 0, alert_sent := true, processed_sigs := [] }
      = ({ last_big_outflow_time := some 0, alert_sent := true, processed_sigs := [] },
         [Event.alert 80]) := by
  norm_num [check_elapsed_tick]

/-- Counterexample to claim C2: a system transfer of 1 SOL whose
destination is the watched target (and whose source is another wallet)
is not reported as a qualifying inbound transfer: the classifier leaves
the state untouched and emits nothing, because v.py only compares
`source` with the target. -/
theorem inbound_transfer_not_classified :
    process_instruction (1/2) "W2" 5 emptyWatch demoOutflow
      = (emptyWatch, []) := by
  norm_num [process_instruction, demoOutflow]
  decide

/-- Claim C2 (amended): the classifier is outbound-only.  A transfer
whose source is the target and whose amount reaches the threshold
qualifies (timer reset, latch cleared, message emitted); a transfer
whose source is not the target -- including one whose destination is the
target -- never qualifies, regardless of its amount. -/
theorem classifier_outbound_only (threshold : ℚ) (pubkey : String) (now : ℚ)
    (st : WatchState) (instr : Instruction) :
    (instr.source ≠ some pubkey →
      process_instruction threshold pubkey now st instr = (st, []))
    ∧ (instr.program = "system" → instr.parsedType = "transfer" →
        instr.source = some pubkey →
        (instr.lamports : ℚ) / 1000000000 ≥ threshold →
        process_instruction threshold pubkey now st instr
          = ({ st with last_big_outflow_time := some now, alert_sent := false },
             [Event.transferFound ((instr.lamports : ℚ) / 1000000000)])) := by
  constructor
  · intro h
    simp only [process_instruction, if_neg h]
    split_ifs <;> rfl
  · intro h1 h2 h3 h4
    exact process_instruction_qual threshold pubkey now st instr ⟨h1, h2, h3, h4⟩

/-- Witness for the amended C2 at a concrete input: the same 1-SOL
transfer from W1 to W2 is ignored when the target is the destination W2
and classified when the target is the source W1. -/
theorem classifier_outbound_only_witness :
    process_instruction ((demoOutflow.lamports : ℚ) / 1000000000) "W2" 5
        emptyWatch demoOutflow = (emptyWatch, [])
    ∧ process_instruction ((demoOutflow.lamports : ℚ) / 1000000000) "W1" 5
        emptyWatch demoOutflow
      = ({ emptyWatch with last_big_outflow_time := some 5, alert_sent := false },
         [Event.transferFound ((demoOutflow.lamports : ℚ) / 1000000000)]) :=
  ⟨(classifier_outbound_only ((demoOutflow.lamports : ℚ) / 1000000000) "W2" 5
      emptyWatch demoOutflow).1 (by decide),
   (classifier_outbound_only ((demoOutflow.lamports : ℚ) / 1000000000) "W1" 5
      emptyWatch demoOutflow).2 rfl rfl rfl (le_refl _)⟩

/-- Counterexample to claim C3: restarting the push channel for the same
target W1 (the failure handler spawns `subscribe_account`, which re-runs
the prologue of `subscribe_account_ws`) does not leave the watch state
unchanged: a state with admitted signature s1 and last qualifying time
at monotonic time 0 comes back with an empty dedup index and the restart
time 50 as last qualifying time. -/
theorem reconnect_resets_watch_counterexample :
    ¬ (((subscribe_account true "W1" 50 demoGlobal).1).watch = demoGlobal.watch) := by
  simp [subscribe_account, subscribe_account_ws_entry, demoGlobal]

/-- Claim C3 (amended): a backoff-and-restart of the push channel resets
the watchdog state instead of preserving it.  Re-running
`subscribe_account` over websockets unconditionally clears the dedup
index and sets the last qualifying time to the restart time, so the
reconnect alone does reset inactivity timing. -/
theorem reconnect_resets_watch_state (pubkey : String) (now : ℚ) (g : GlobalState) :
    ((subscribe_account true pubkey now g).1).watch
      = { last_big_outflow_time := some now, alert_sent := false,
          processed_sigs := [] } := rfl

/-- Counterexample to claim C4: with the push transport structurally
unavailable, starting a watch on W1 runs neither the pull channel nor
the inactivity timer: from an idle state, `subscribe_account` returns
with no poll task, no tick task, the watch state untouched, and only the
cannot-monitor message. -/
theorem no_push_no_monitoring_counterexample :
    subscribe_account false "W1" 0
        { watch := emptyWatch, monitor_pubkey := none, monitor_task := none,
          tick_tasks := [], poll_tasks := [] }
      = ({ watch := emptyWatch, monitor_pubkey := some "W1", monitor_task := none,
           tick_tasks := [], poll_tasks := [] },
         [Event.cannotMonitor]) := rfl

/-- Claim C4 (amended): when the push transport is unavailable,
`subscribe_account` records the monitor pubkey and sends the
cannot-monitor message, and nothing else happens: the pull poller and
the timer loop are never started (both are spawned only inside
`subscribe_account_ws`), so no monitoring at all takes place. -/
theorem no_push_transport_no_tasks (pubkey : String) (now : ℚ) (g : GlobalState) :
    subscribe_account false pubkey now g
      = ({ g with monitor_pubkey := some pubkey }, [Event.cannotMonitor]) := rfl

/-- Claim C5: the claim states that after a new target is assigned, no
task of the superseded target restarts the old push channel.  Evaluated
at the failing input -- W1 monitored, its push channel fails, and during
the backoff the user selects W2 -- the failure handler for W1 consults
the current global `monitor_task` (now the uncancelled W2 task) and
spawns `subscribe_account` for the superseded target W1; the switch also
leaves the W1 tick and poll tasks running. -/
theorem stale_failure_handler_restarts_old_target :
    ws_failure_restart (wallet_selected "W2" 100 demoGlobal) "W1" = some "W1"
    ∧ (wallet_selected "W2" 100 demoGlobal).tick_tasks = ["W1"]
    ∧ (wallet_selected "W2" 100 demoGlobal).poll_tasks = ["W1"] :=
  ⟨rfl, rfl, rfl⟩

/-- Claim C6: the claim states that after a stop command every
subsequent tick is a no-op.  Evaluated at the failing input -- W1
monitored with last qualifying transfer at monotonic time 0, stop
issued, next tick at time 80 with a 40-second pause threshold -- `stop`
cancels only `monitor_task`, leaving the tick and poll tasks running and
the watch state intact, and the next tick emits an alert. -/
theorem stop_leaves_loops_running :
    (stop demoGlobal).tick_tasks = ["W1"]
    ∧ (stop demoGlobal).poll_tasks = ["W1"]
    ∧ (stop demoGlobal).watch = demoGlobal.watch
    ∧ (check_elapsed_tick 40 80 (stop demoGlobal).watch).2 = [Event.alert 80] := by
  refine ⟨rfl, rfl, rfl, ?_⟩
  norm_num [stop, demoGlobal, check_elapsed_tick]

end Tracker
